import Mathlib

/-!
Shallow embedding of the PDF document-rendering engine of the carsearch
repository (file src/server/pdf.ts, function createPDF), together with
theorems settling the specification claims about it.

Modelling conventions:
- pdfkit drawing calls become draw primitives (Prim) appended to the
  current page of a Doc value; doc.addPage starts a new page.
- The graphics state (current fill color, font, font size) is threaded
  explicitly, since doc.text picks up the current state.
- fs.existsSync and image-decode success are supplied by a Store value
  (the external asset store of the spec); path.join(process.cwd(),
  "uploads", ref) is modelled by uploadPath with a constant cwd.
- The storage lookup of the users organization (pdf.ts lines 13-17) is
  out of scope per the spec; the organization is passed directly as an
  Option Organization value, matching the createDocument signature of
  the spec.
- The wall-clock render time (new Date() on pdf.ts line 38) is passed
  explicitly as a Nat timestamp.
- The date-fns format call on pdf.ts line 65 is an external library;
  it is modelled as rendering of the timestamp value.
-/

/-- Search record, fields as in the searches table of the drizzle schema
(shared schema file) that pdf.ts reads. -/
structure Search where
  id : Nat
  userId : Nat
  customerFirstName : String
  customerLastName : String
  customerEmail : String
  customerPhone : String
  carMake : String
  carModel : String
  carType : String
  carYear : String
  carColor : String
  carTransmission : String
  carFuel : String
  minPrice : Int
  maxPrice : Int
  additionalRequirements : Option String
  images : Option (List String)
  status : String
  createdAt : Nat
deriving Repr, DecidableEq

/-- Organization record; only the fields pdf.ts reads (logo and the four
pdf branding columns), all nullable in the schema. -/
structure Organization where
  name : String
  logo : Option String
  pdfPrimaryColor : Option String
  pdfSecondaryColor : Option String
  pdfCompanyName : Option String
  pdfContactInfo : Option String
deriving Repr, DecidableEq

/-- External asset store: existsSync models fs.existsSync on a path and
decodes models whether doc.image succeeds on the bytes at that path
(pdfkit throws on undecodable data, caught by the source). -/
structure Store where
  existsSync : String → Bool
  decodes : String → Bool

/-- JavaScript truthiness of a nullable string: null, undefined and the
empty string are falsy. -/
def jsTruthy : Option String → Bool
  | none => false
  | some s => !(s == "")

/-- JavaScript a || b on a nullable string a with string default b. -/
def jsOr (v : Option String) (d : String) : String :=
  match v with
  | none => d
  | some s => if s == "" then d else s

/-- Path of an uploaded asset: path.join(process.cwd(), "uploads", ref)
with the working directory constant. -/
def uploadPath (ref : String) : String := "uploads/" ++ ref

/-- External date-fns format call (pdf.ts line 65), modelled as a plain
rendering of the timestamp. -/
def formatDate (t : Nat) : String := toString t

/-- Digit grouping for Number.prototype.toLocaleString: a comma every
three digits from the right; input and output are reversed digit lists. -/
def groupDigitsRev : List Char → List Char
  | a :: b :: c :: d :: rest => a :: b :: c :: ',' :: groupDigitsRev (d :: rest)
  | l => l

/-- Number.prototype.toLocaleString for integers under the default
en-US locale of the runtime: thousands separated by commas. -/
def toLocaleString (n : Int) : String :=
  let g := String.mk (groupDigitsRev (toString n.natAbs).data.reverse).reverse
  if n < 0 then "-" ++ g else g

/-- Draw primitive emitted to the document writer. -/
inductive Prim where
  | rect (x y w h : Nat) (fill stroke : String)
  | line (x1 y1 x2 y2 : Nat) (color : String)
  | text (s : String) (x y : Nat) (color font : String) (size : Nat)
  | image (path : String) (x y w h : Nat)
deriving Repr, DecidableEq

/-- Graphics state of the pdfkit document: current fill color, font and
font size, picked up by text calls. -/
structure GState where
  fillColor : String
  fontName : String
  fontSize : Nat
deriving Repr, DecidableEq

/-- Document under construction: finished pages, the current page and
the graphics state. -/
structure Doc where
  donePages : List (List Prim)
  cur : List Prim
  gs : GState
deriving Repr, DecidableEq

def Doc.emit (d : Doc) (p : Prim) : Doc := { d with cur := d.cur ++ [p] }

/-- doc.fillColor(c) -/
def Doc.fillColor (d : Doc) (c : String) : Doc :=
  { d with gs := { d.gs with fillColor := c } }

/-- doc.font(f) -/
def Doc.font (d : Doc) (f : String) : Doc :=
  { d with gs := { d.gs with fontName := f } }

/-- doc.fontSize(n) -/
def Doc.fontSize (d : Doc) (n : Nat) : Doc :=
  { d with gs := { d.gs with fontSize := n } }

/-- doc.text(s, x, y): emits a text run in the current graphics state. -/
def Doc.text (d : Doc) (s : String) (x y : Nat) : Doc :=
  d.emit (Prim.text s x y d.gs.fillColor d.gs.fontName d.gs.fontSize)

/-- doc.rect(x, y, w, h).fillAndStroke(fill, stroke) -/
def Doc.rectFill (d : Doc) (x y w h : Nat) (fill stroke : String) : Doc :=
  d.emit (Prim.rect x y w h fill stroke)

/-- doc.moveTo(x1, y1).lineTo(x2, y2).stroke(c) -/
def Doc.lineStroke (d : Doc) (x1 y1 x2 y2 : Nat) (c : String) : Doc :=
  d.emit (Prim.line x1 y1 x2 y2 c)

/-- doc.image(path, x, y, options) on decodable bytes. -/
def Doc.imageAt (d : Doc) (p : String) (x y w h : Nat) : Doc :=
  d.emit (Prim.image p x y w h)

/-- doc.addPage(): the current page is finished and a fresh one begins. -/
def Doc.addPage (d : Doc) : Doc :=
  { d with donePages := d.donePages ++ [d.cur], cur := [] }

/-- Pages of the document, the current page included. -/
def Doc.pagesList (d : Doc) : List (List Prim) := d.donePages ++ [d.cur]

/-- Every primitive of the document, in emission order. -/
def Doc.allPrims (d : Doc) : List Prim := d.pagesList.flatten

/-- Fresh pdfkit document state (default fill black, font Helvetica,
size 12). -/
def initialDoc : Doc :=
  { donePages := [], cur := [],
    gs := { fillColor := "black", fontName := "Helvetica", fontSize := 12 } }

/-- Style constants of pdf.ts lines 43-45. -/
def lightGray : String := "#f3f4f6"

def mediumGray : String := "#e5e7eb"

def darkGray : String := "#9ca3af"

def defaultContactInfo : String :=
  "Tel: 020-123456 | info@carsearchpro.nl | www.carsearchpro.nl"

/-- Resolved styling values (pdf.ts lines 40-47). -/
structure Style where
  primaryColor : String
  textColor : String
  companyName : String
  contactInfo : String
deriving Repr, DecidableEq

/-- Styling variables of pdf.ts lines 41-47: organization settings when
available (JavaScript || fallback), documented defaults otherwise. -/
def resolveStyle (organization : Option Organization) : Style :=
  { primaryColor := jsOr (organization.bind Organization.pdfPrimaryColor) "#4a6da7"
    textColor := jsOr (organization.bind Organization.pdfSecondaryColor) "#333333"
    companyName := jsOr (organization.bind Organization.pdfCompanyName) "CarSearch Pro"
    contactInfo := jsOr (organization.bind Organization.pdfContactInfo) defaultContactInfo }

/-- Header band of pdf.ts lines 49-65. -/
def headerBand (st : Style) (s : Search) (d : Doc) : Doc :=
  let d := d.rectFill 50 50 495 80 lightGray lightGray
  let d := (((d.fillColor st.primaryColor).fontSize 24).font "Helvetica-Bold").text st.companyName 180 65
  let d := (((d.fillColor st.textColor).fontSize 14).font "Helvetica").text "Zoekopdracht Rapport" 180 95
  ((d.fillColor darkGray).fontSize 10).text ("Datum: " ++ formatDate s.createdAt) 380 95

/-- Logo placeholder helper of pdf.ts lines 68-76. -/
def drawLogoPlaceholder (st : Style) (d : Doc) : Doc :=
  let d := d.rectFill 60 60 100 60 st.primaryColor st.primaryColor
  (((d.fillColor "white").fontSize 16).font "Helvetica-Bold").text "LOGO" 90 80

/-- Logo block of pdf.ts lines 78-100: organization logo when set,
existing and decodable, the placeholder in every other case (the failed
doc.image call emits nothing before throwing). -/
def logoBlock (st : Style) (organization : Option Organization) (store : Store) (d : Doc) : Doc :=
  match organization.bind Organization.logo with
  | some l =>
    if l == "" then drawLogoPlaceholder st d
    else if store.existsSync (uploadPath l) then
      if store.decodes (uploadPath l) then d.imageAt (uploadPath l) 60 60 100 60
      else drawLogoPlaceholder st d
    else drawLogoPlaceholder st d
  | none => drawLogoPlaceholder st d

/-- Customer information section of pdf.ts lines 102-130. -/
def customerSection (st : Style) (s : Search) (d : Doc) : Doc :=
  let d := (((d.fillColor st.primaryColor).fontSize 14).font "Helvetica-Bold").text "Klantgegevens" 50 160
  let d := d.lineStroke 50 180 545 180 mediumGray
  let d := (((d.fillColor st.textColor).fontSize 11).font "Helvetica-Bold").text "Naam:" 50 190
  let d := (d.font "Helvetica").text (s.customerFirstName ++ " " ++ s.customerLastName) 150 190
  let d := ((d.fontSize 11).font "Helvetica-Bold").text "Email:" 50 210
  let d := (d.font "Helvetica").text s.customerEmail 150 210
  let d := ((d.fontSize 11).font "Helvetica-Bold").text "Telefoon:" 50 230
  (d.font "Helvetica").text s.customerPhone 150 230

/-- Car details section plus price range of pdf.ts lines 132-198; the
returned number is the running y cursor after the price row (380). -/
def carSection (st : Style) (s : Search) (d : Doc) : Doc × Nat :=
  let d := (((d.fillColor st.primaryColor).fontSize 14).font "Helvetica-Bold").text "Auto Specificaties" 50 270
  let d := d.lineStroke 50 290 545 290 mediumGray
  let col1X := 50
  let col2X := 300
  let y := 300
  let d := (((d.fillColor st.textColor).fontSize 11).font "Helvetica-Bold").text "Merk & Model:" col1X y
  let d := (d.font "Helvetica").text (s.carMake ++ " " ++ s.carModel) (col1X + 100) y
  let y := y + 20
  let d := ((d.fontSize 11).font "Helvetica-Bold").text "Type:" col1X y
  let d := (d.font "Helvetica").text s.carType (col1X + 100) y
  let y := y + 20
  let d := ((d.fontSize 11).font "Helvetica-Bold").text "Bouwjaar:" col1X y
  let d := (d.font "Helvetica").text s.carYear (col1X + 100) y
  let y := 300
  let d := ((d.fontSize 11).font "Helvetica-Bold").text "Kleur:" col2X y
  let d := (d.font "Helvetica").text s.carColor (col2X + 100) y
  let y := y + 20
  let d := ((d.fontSize 11).font "Helvetica-Bold").text "Transmissie:" col2X y
  let d := (d.font "Helvetica").text s.carTransmission (col2X + 100) y
  let y := y + 20
  let d := ((d.fontSize 11).font "Helvetica-Bold").text "Brandstof:" col2X y
  let d := (d.font "Helvetica").text s.carFuel (col2X + 100) y
  let y := y + 40
  let d := ((d.fontSize 11).font "Helvetica-Bold").text "Prijsrange:" col1X y
  let d := (d.font "Helvetica").text ("€" ++ toLocaleString s.minPrice ++ " - €" ++ toLocaleString s.maxPrice) (col1X + 100) y
  (d, y)

/-- Additional requirements section of pdf.ts lines 200-218, rendered
only when the field is truthy; returns the updated y cursor. -/
def notesSection (st : Style) (s : Search) (d : Doc) (y : Nat) : Doc × Nat :=
  match s.additionalRequirements with
  | some req =>
    if req == "" then (d, y)
    else
      let y := y + 40
      let d := (((d.fillColor st.primaryColor).fontSize 14).font "Helvetica-Bold").text "Aanvullende eisen" 50 y
      let y := y + 20
      let d := d.lineStroke 50 y 545 y mediumGray
      let y := y + 10
      let d := (((d.fillColor st.textColor).fontSize 11).font "Helvetica").text req 50 y
      (d, y)
  | none => (d, y)

/-- Image geometry constants of pdf.ts lines 244-246. -/
def imgWidth : Nat := 230

def imgHeight : Nat := 160

def imgMargin : Nat := 15

/-- Event of one gallery-loop iteration: an image placed at a position
(decoded tells whether the real image or the unavailable placeholder was
drawn), an entry skipped because fs.existsSync was false, or a page
break. -/
inductive GEvent where
  | placed (i : Nat) (ref : String) (x y : Nat) (decoded : Bool)
  | skipped (i : Nat)
  | pageBreak
deriving Repr, DecidableEq

/-- Gallery loop of pdf.ts lines 251-291: i is the index in the full
image list, col the column toggle, startY the row top; total is the
length of the FULL (uncapped) image list, used by the page-break test
i < total - 2. Skipped entries advance neither the column nor the row. -/
def galleryGo (store : Store) (total : Nat) : List String → Nat → Nat → Nat → List GEvent
  | [], _, _, _ => []
  | ref :: rest, i, col, startY =>
    if store.existsSync (uploadPath ref) then
      let x := if col == 0 then 50 else 50 + imgWidth + imgMargin
      if col == 0 then
        GEvent.placed i ref x startY (store.decodes (uploadPath ref)) ::
          galleryGo store total rest (i + 1) 1 startY
      else
        let startY2 := startY + imgHeight + imgMargin
        if i < total - 2 && startY2 + imgHeight > 750 then
          GEvent.placed i ref x startY (store.decodes (uploadPath ref)) ::
            GEvent.pageBreak :: galleryGo store total rest (i + 1) 0 50
        else
          GEvent.placed i ref x startY (store.decodes (uploadPath ref)) ::
            galleryGo store total rest (i + 1) 0 startY2
    else
      GEvent.skipped i :: galleryGo store total rest (i + 1) col startY

/-- Gallery trace of a search: the loop runs over the first
Math.min(images.length, 4) entries with the uncapped length as total. -/
def galleryTrace (store : Store) (images : List String) (startY : Nat) : List GEvent :=
  galleryGo store images.length (images.take (min images.length 4)) 0 0 startY

/-- Drawing effect of one gallery event (pdf.ts lines 255-290): a
decodable image becomes an image primitive, undecodable bytes become the
light-gray box with the unavailable label, a skipped entry draws
nothing, a page break starts a new page. -/
def renderEvent (d : Doc) : GEvent → Doc
  | GEvent.placed _ ref x y true => d.imageAt (uploadPath ref) x y imgWidth imgHeight
  | GEvent.placed _ _ x y false =>
      let d := d.rectFill x y imgWidth imgHeight lightGray mediumGray
      ((d.fillColor darkGray).fontSize 12).text "Afbeelding niet beschikbaar" (x + 50) (y + imgHeight / 2 - 6)
  | GEvent.skipped _ => d
  | GEvent.pageBreak => d.addPage

/-- Renders a gallery trace in order. -/
def renderTrace (d : Doc) : List GEvent → Doc
  | [] => d
  | e :: es => renderTrace (renderEvent d e) es

/-- Image gallery section of pdf.ts lines 220-295: rendered only when
the image list is truthy and non-empty; the y cursor update after the
loop (line 294) is dead code, y is never read again. -/
def gallerySection (st : Style) (s : Search) (store : Store) (d : Doc) (y : Nat) : Doc :=
  match s.images with
  | some imgs =>
    if imgs.length > 0 then
      let y := y + 60
      let p := if y > 650 then (d.addPage, 50) else (d, y)
      let d := p.1
      let y := p.2
      let d := (((d.fillColor st.primaryColor).fontSize 14).font "Helvetica-Bold").text "Auto Afbeeldingen" 50 y
      let y := y + 20
      let d := d.lineStroke 50 y 545 y mediumGray
      let y := y + 20
      renderTrace d (galleryTrace store imgs y)
    else d
  | none => d

/-- Footer of pdf.ts lines 297-302, drawn once at fixed coordinates on
whatever page is current. -/
def footerSection (st : Style) (d : Doc) : Doc :=
  let d := ((d.fontSize 9).fillColor darkGray).text (st.companyName ++ " - Uw specialist in auto zoekopdrachten") 50 750
  (d.fontSize 8).text st.contactInfo 50 765

/-- Full page construction of createPDF, pdf.ts lines 40-302, in source
order. -/
def buildDoc (s : Search) (organization : Option Organization) (store : Store) : Doc :=
  let st := resolveStyle organization
  let d := headerBand st s initialDoc
  let d := logoBlock st organization store d
  let d := customerSection st s d
  let p := carSection st s d
  let q := notesSection st s p.1 p.2
  let d := gallerySection st s store q.1 q.2
  footerSection st d

/-- Document metadata of pdf.ts lines 23-26 and 38: title from the
search id, author the resolved company name, creation date the render
time. -/
structure DocMeta where
  title : String
  author : String
  creationDate : Nat
deriving Repr, DecidableEq

def renderMeta (s : Search) (organization : Option Organization) (now : Nat) : DocMeta :=
  { title := "Zoekopdracht " ++ toString s.id
    author := jsOr (organization.bind Organization.pdfCompanyName) "CarSearch Pro"
    creationDate := now }

/-- Finalized render result: metadata plus the drawn document, standing
for the byte buffer assembled from the data events. -/
structure PDFState where
  meta : DocMeta
  doc : Doc
deriving Repr, DecidableEq

/-- Failure modes of the document-writing stage: the PDFDocument
constructor throwing at open, or doc.end throwing at finalize; both are
caught by the try block of pdf.ts lines 10-308 and turned into a
rejection. -/
inductive RenderError where
  | writerOpen
  | writerFinalize
deriving Repr, DecidableEq

/-- Writer stage with possible injected failures. -/
structure WriterStage where
  openFails : Bool
  finalizeFails : Bool
deriving Repr, DecidableEq

/-- Writer that does not fail. -/
def writerOk : WriterStage := { openFails := false, finalizeFails := false }

/-- createPDF of pdf.ts lines 8-309: a writer failure at open or
finalize is caught and rejected (lines 306-308), so the promise settles
with an error and no buffer; otherwise the resolved buffer carries the
metadata and the drawn pages. -/
def createPDF (w : WriterStage) (s : Search) (organization : Option Organization)
    (store : Store) (now : Nat) : Except RenderError PDFState :=
  if w.openFails then Except.error RenderError.writerOpen
  else if w.finalizeFails then Except.error RenderError.writerFinalize
  else Except.ok { meta := renderMeta s organization now, doc := buildDoc s organization store }

/-- Strings of all text runs of the document, in emission order. -/
def PDFState.textContent (p : PDFState) : List String :=
  p.doc.allPrims.filterMap fun pr =>
    match pr with
    | Prim.text s _ _ _ _ _ => some s
    | _ => none

/-- Number of pages of the document. -/
def PDFState.pageCount (p : PDFState) : Nat := p.doc.pagesList.length

/-! ## Concrete inputs used by scenario theorems, counterexamples and witnesses -/

/-- Scenario A search of the spec: Audi A4, price range 15000-25000, no
images, no notes. -/
def scenarioA : Search :=
  { id := 1, userId := 1, customerFirstName := "Jan", customerLastName := "Jansen",
    customerEmail := "jan@example.com", customerPhone := "0600000000",
    carMake := "Audi", carModel := "A4", carType := "Sedan", carYear := "2020",
    carColor := "Zwart", carTransmission := "Automaat", carFuel := "Benzine",
    minPrice := 15000, maxPrice := 25000, additionalRequirements := none,
    images := none, status := "active", createdAt := 0 }

/-- Asset store with no assets. -/
def emptyStore : Store := { existsSync := fun _ => false, decodes := fun _ => false }

/-- Asset store where every path exists and decodes. -/
def storeAll : Store := { existsSync := fun _ => true, decodes := fun _ => true }

/-- Asset store holding only the gallery image b.jpg. -/
def storeOnlyB : Store :=
  { existsSync := fun p => p == uploadPath "b.jpg", decodes := fun _ => true }

/-- Two-image list whose first entry is missing from storeOnlyB. -/
def cxImages2 : List String := ["a.jpg", "b.jpg"]

/-- Three-image list, all present in storeAll. -/
def cxImages3 : List String := ["a.jpg", "b.jpg", "c.jpg"]

/-- Scenario A search with the two-image list attached. -/
def cxSearch2 : Search := { scenarioA with images := some cxImages2 }

/-- Scenario A search with the three-image list attached. -/
def cxSearch3 : Search := { scenarioA with images := some cxImages3 }

/-! ## Claim theorems -/

/-- C5: for the scenario A record (make Audi, model A4, minPrice 15000,
maxPrice 25000, no images, no notes, no organization branding) the
render succeeds with a non-empty single-page document whose text content
contains the literal strings Audi A4 and the price text. -/
theorem scenario_a_render :
    createPDF writerOk scenarioA none emptyStore 0 =
      Except.ok { meta := renderMeta scenarioA none 0, doc := buildDoc scenarioA none emptyStore } ∧
    (buildDoc scenarioA none emptyStore).allPrims ≠ [] ∧
    (buildDoc scenarioA none emptyStore).pagesList.length = 1 ∧
    "Audi A4" ∈ (PDFState.mk (renderMeta scenarioA none 0) (buildDoc scenarioA none emptyStore)).textContent ∧
    "€15,000 - €25,000" ∈ (PDFState.mk (renderMeta scenarioA none 0) (buildDoc scenarioA none emptyStore)).textContent := by
  refine ⟨rfl, ?_, ?_, ?_, ?_⟩ <;> decide

/-- C4: the text content and the page count of the rendered document do
not depend on the render time; with the record, branding and asset store
fixed, two invocations agree on both. -/
theorem render_deterministic (w : WriterStage) (s : Search) (o : Option Organization)
    (store : Store) (n1 n2 : Nat) :
    (createPDF w s o store n1).map PDFState.textContent =
      (createPDF w s o store n2).map PDFState.textContent ∧
    (createPDF w s o store n1).map PDFState.pageCount =
      (createPDF w s o store n2).map PDFState.pageCount := by
  cases ho : w.openFails <;> cases hf : w.finalizeFails <;>
    simp [createPDF, ho, hf, Except.map, PDFState.textContent, PDFState.pageCount]

/-- C7: when the document-writing stage fails to open or to finalize,
the whole render call fails with an error and no buffer is returned. -/
theorem writer_failure_propagates (w : WriterStage) (s : Search) (o : Option Organization)
    (store : Store) (now : Nat) (h : w.openFails = true ∨ w.finalizeFails = true) :
    (∃ e, createPDF w s o store now = Except.error e) ∧
    ∀ p, createPDF w s o store now ≠ Except.ok p := by
  rcases h with h | h
  · exact ⟨⟨RenderError.writerOpen, by simp [createPDF, h]⟩, by simp [createPDF, h]⟩
  · cases ho : w.openFails
    · exact ⟨⟨RenderError.writerFinalize, by simp [createPDF, h, ho]⟩, by simp [createPDF, h, ho]⟩
    · exact ⟨⟨RenderError.writerOpen, by simp [createPDF, ho]⟩, by simp [createPDF, ho]⟩

/-- Witness for C7 at a concrete failing writer. -/
theorem writer_failure_propagates_witness :
    createPDF { openFails := true, finalizeFails := false } scenarioA none emptyStore 0 ≠
      Except.ok { meta := renderMeta scenarioA none 0, doc := buildDoc scenarioA none emptyStore } :=
  (writer_failure_propagates _ scenarioA none emptyStore 0 (Or.inl rfl)).2 _

/-- C8: the metadata of a successful render has its title derived from
the search id, its author the resolved company name, and its creation
date the render time, which differs from the records creation time
whenever the two timestamps differ. -/
theorem document_metadata (s : Search) (o : Option Organization) (store : Store)
    (now : Nat) (p : PDFState) (h : createPDF writerOk s o store now = Except.ok p) :
    p.meta.title = "Zoekopdracht " ++ toString s.id ∧
    p.meta.author = (resolveStyle o).companyName ∧
    p.meta.creationDate = now ∧
    (now ≠ s.createdAt → p.meta.creationDate ≠ s.createdAt) := by
  have hp : p = ⟨renderMeta s o now, buildDoc s o store⟩ := by
    have := h.symm
    simpa [createPDF, writerOk] using this
  subst hp
  exact ⟨rfl, rfl, rfl, fun hne => hne⟩

/-- Witness for C8 at render time 1 on a record created at time 0. -/
theorem document_metadata_witness :
    (renderMeta scenarioA none 1).title = "Zoekopdracht " ++ toString scenarioA.id ∧
    (renderMeta scenarioA none 1).author = (resolveStyle none).companyName ∧
    (renderMeta scenarioA none 1).creationDate = 1 ∧
    (renderMeta scenarioA none 1).creationDate ≠ scenarioA.createdAt := by
  have h := document_metadata scenarioA none emptyStore 1
    ⟨renderMeta scenarioA none 1, buildDoc scenarioA none emptyStore⟩ rfl
  exact ⟨h.1, h.2.1, h.2.2.1, h.2.2.2 (by decide)⟩

/-- C10: a null image list renders exactly like an empty one; the whole
document, and the full render result for any writer and render time, are
unchanged. -/
theorem images_null_render (s : Search) (o : Option Organization) (store : Store) :
    buildDoc { s with images := none } o store = buildDoc { s with images := some [] } o store ∧
    ∀ w now, createPDF w { s with images := none } o store now =
      createPDF w { s with images := some [] } o store now :=
  ⟨rfl, fun _ _ => rfl⟩

/-! ## Monotonicity of emitted primitives along the pipeline -/

/-- Doc d2 extends d1 when its primitive list appends to that of d1. -/
def Doc.Extends (d2 d1 : Doc) : Prop := ∃ t, d2.allPrims = d1.allPrims ++ t

theorem Doc.allPrims_emit (d : Doc) (p : Prim) : (d.emit p).allPrims = d.allPrims ++ [p] := by
  simp [Doc.allPrims, Doc.pagesList, Doc.emit]

theorem Doc.allPrims_fillColor (d : Doc) (c : String) : (d.fillColor c).allPrims = d.allPrims := rfl

theorem Doc.allPrims_font (d : Doc) (f : String) : (d.font f).allPrims = d.allPrims := rfl

theorem Doc.allPrims_fontSize (d : Doc) (n : Nat) : (d.fontSize n).allPrims = d.allPrims := rfl

theorem Doc.allPrims_addPage (d : Doc) : d.addPage.allPrims = d.allPrims := by
  simp [Doc.allPrims, Doc.pagesList, Doc.addPage]

theorem Doc.Extends.rfl (d : Doc) : d.Extends d := ⟨[], by simp⟩

theorem Doc.Extends.emit {d2 d1 : Doc} (h : d2.Extends d1) (p : Prim) : (d2.emit p).Extends d1 := by
  obtain ⟨t, ht⟩ := h
  exact ⟨t ++ [p], by rw [Doc.allPrims_emit, ht, List.append_assoc]⟩

theorem Doc.Extends.text {d2 d1 : Doc} (h : d2.Extends d1) (s : String) (x y : Nat) :
    (d2.text s x y).Extends d1 := h.emit _

theorem Doc.Extends.rectFill {d2 d1 : Doc} (h : d2.Extends d1) (x y w hh : Nat) (f st : String) :
    (d2.rectFill x y w hh f st).Extends d1 := h.emit _

theorem Doc.Extends.lineStroke {d2 d1 : Doc} (h : d2.Extends d1) (x1 y1 x2 y2 : Nat) (c : String) :
    (d2.lineStroke x1 y1 x2 y2 c).Extends d1 := h.emit _

theorem Doc.Extends.imageAt {d2 d1 : Doc} (h : d2.Extends d1) (p : String) (x y w hh : Nat) :
    (d2.imageAt p x y w hh).Extends d1 := h.emit _

theorem Doc.Extends.fillColor {d2 d1 : Doc} (h : d2.Extends d1) (c : String) :
    (d2.fillColor c).Extends d1 := by
  obtain ⟨t, ht⟩ := h
  exact ⟨t, by rw [Doc.allPrims_fillColor, ht]⟩

theorem Doc.Extends.font {d2 d1 : Doc} (h : d2.Extends d1) (f : String) :
    (d2.font f).Extends d1 := by
  obtain ⟨t, ht⟩ := h
  exact ⟨t, by rw [Doc.allPrims_font, ht]⟩

theorem Doc.Extends.fontSize {d2 d1 : Doc} (h : d2.Extends d1) (n : Nat) :
    (d2.fontSize n).Extends d1 := by
  obtain ⟨t, ht⟩ := h
  exact ⟨t, by rw [Doc.allPrims_fontSize, ht]⟩

theorem Doc.Extends.addPage {d2 d1 : Doc} (h : d2.Extends d1) : d2.addPage.Extends d1 := by
  obtain ⟨t, ht⟩ := h
  exact ⟨t, by rw [Doc.allPrims_addPage, ht]⟩

theorem mem_allPrims_mono {p : Prim} {d2 d1 : Doc} (hm : p ∈ d1.allPrims) (h : d2.Extends d1) :
    p ∈ d2.allPrims := by
  obtain ⟨t, ht⟩ := h
  rw [ht]
  exact List.mem_append_left _ hm

theorem headerBand_extends (st : Style) (s : Search) {d d0 : Doc} (h : d.Extends d0) :
    (headerBand st s d).Extends d0 := by
  unfold headerBand
  exact ((((((((((h.rectFill _ _ _ _ _ _).fillColor _).fontSize _).font _).text _ _ _).fillColor
    _).fontSize _).font _).text _ _ _).fillColor _).fontSize _ |>.text _ _ _

theorem drawLogoPlaceholder_extends (st : Style) {d d0 : Doc} (h : d.Extends d0) :
    (drawLogoPlaceholder st d).Extends d0 := by
  unfold drawLogoPlaceholder
  exact ((((h.rectFill _ _ _ _ _ _).fillColor _).fontSize _).font _).text _ _ _

theorem logoBlock_extends (st : Style) (o : Option Organization) (store : Store)
    {d d0 : Doc} (h : d.Extends d0) : (logoBlock st o store d).Extends d0 := by
  unfold logoBlock
  rcases o.bind Organization.logo with _ | l
  · exact drawLogoPlaceholder_extends st h
  · dsimp only
    split
    · exact drawLogoPlaceholder_extends st h
    · split
      · split
        · exact h.imageAt _ _ _ _ _
        · exact drawLogoPlaceholder_extends st h
      · exact drawLogoPlaceholder_extends st h

theorem customerSection_extends (st : Style) (s : Search) {d d0 : Doc} (h : d.Extends d0) :
    (customerSection st s d).Extends d0 := by
  unfold customerSection
  exact (((((((((((((((h.fillColor _).fontSize _).font _).text _ _ _).lineStroke _ _ _ _
    _).fillColor _).fontSize _).font _).text _ _ _).font _).text _ _ _).fontSize _).font
    _).text _ _ _).font _).text _ _ _ |>.fontSize _ |>.font _ |>.text _ _ _ |>.font
    _ |>.text _ _ _

theorem carSection_extends (st : Style) (s : Search) {d d0 : Doc} (h : d.Extends d0) :
    (carSection st s d).1.Extends d0 := by
  unfold carSection
  exact ((((((((((((((((((((((h.fillColor _).fontSize _).font _).text _ _ _).lineStroke _ _ _
    _ _).fillColor _).fontSize _).font _).text _ _ _).font _).text _ _ _).fontSize _).font
    _).text _ _ _).font _).text _ _ _).fontSize _).font _).text _ _ _).font _).text _ _
    _).fontSize _).font _ |>.text _ _ _ |>.font _ |>.text _ _ _ |>.fontSize _ |>.font
    _ |>.text _ _ _ |>.font _ |>.text _ _ _ |>.fontSize _ |>.font _ |>.text _ _ _ |>.font
    _ |>.text _ _ _ |>.fontSize _ |>.font _ |>.text _ _ _ |>.font _ |>.text _ _ _

theorem notesSection_extends (st : Style) (s : Search) {d d0 : Doc} (y : Nat) (h : d.Extends d0) :
    (notesSection st s d y).1.Extends d0 := by
  unfold notesSection
  rcases s.additionalRequirements with _ | req
  · exact h
  · dsimp only
    split
    · exact h
    · exact ((((((h.fillColor _).fontSize _).font _).text _ _ _).lineStroke _ _ _ _
        _).fillColor _).fontSize _ |>.font _ |>.text _ _ _

theorem renderEvent_extends {d d0 : Doc} (h : d.Extends d0) (e : GEvent) :
    (renderEvent d e).Extends d0 := by
  cases e with
  | placed i ref x y dec =>
    cases dec
    · exact (((h.rectFill _ _ _ _ _ _).fillColor _).fontSize _).text _ _ _
    · exact h.imageAt _ _ _ _ _
  | skipped i => exact h
  | pageBreak => exact h.addPage

theorem renderTrace_extends : ∀ (t : List GEvent) {d d0 : Doc}, d.Extends d0 →
    (renderTrace d t).Extends d0
  | [], _, _, h => h
  | e :: es, _, _, h => renderTrace_extends es (renderEvent_extends h e)

theorem gallerySection_extends (st : Style) (s : Search) (store : Store) (y : Nat)
    {d d0 : Doc} (h : d.Extends d0) : (gallerySection st s store d y).Extends d0 := by
  unfold gallerySection
  rcases s.images with _ | imgs
  · exact h
  · dsimp only
    split
    · refine renderTrace_extends _ ?_
      split
      · exact (((h.addPage.fillColor _).fontSize _).font _).text _ _ _ |>.lineStroke _ _ _ _ _
      · exact (((h.fillColor _).fontSize _).font _).text _ _ _ |>.lineStroke _ _ _ _ _
    · exact h

theorem footerSection_extends (st : Style) {d d0 : Doc} (h : d.Extends d0) :
    (footerSection st d).Extends d0 := by
  unfold footerSection
  exact (((h.fontSize _).fillColor _).text _ _ _).fontSize _ |>.text _ _ _

theorem buildDoc_extends_logoBlock (s : Search) (o : Option Organization) (store : Store) :
    (buildDoc s o store).Extends
      (logoBlock (resolveStyle o) o store (headerBand (resolveStyle o) s initialDoc)) := by
  unfold buildDoc
  exact footerSection_extends _ (gallerySection_extends _ _ _ _
    (notesSection_extends _ _ _ (carSection_extends _ _
      (customerSection_extends _ _ (Doc.Extends.rfl _)))))

theorem buildDoc_extends_headerBand (s : Search) (o : Option Organization) (store : Store) :
    (buildDoc s o store).Extends (headerBand (resolveStyle o) s initialDoc) := by
  unfold buildDoc
  exact footerSection_extends _ (gallerySection_extends _ _ _ _
    (notesSection_extends _ _ _ (carSection_extends _ _
      (customerSection_extends _ _ (logoBlock_extends _ _ _ (Doc.Extends.rfl _))))))

/-- JavaScript || falls back to the default on a falsy value. -/
theorem jsOr_of_not_truthy {v : Option String} {d : String} (h : jsTruthy v = false) :
    jsOr v d = d := by
  cases v with
  | none => rfl
  | some s =>
    have hs : (s == "") = true := by simpa [jsTruthy] using h
    simp [jsOr, hs]

theorem Doc.allPrims_mk (dp : List (List Prim)) (c : List Prim) (g : GState) :
    (Doc.mk dp c g).allPrims = dp.flatten ++ c := by
  simp [Doc.allPrims, Doc.pagesList]

theorem Doc.donePages_emit (d : Doc) (p : Prim) : (d.emit p).donePages = d.donePages := rfl

theorem Doc.cur_emit (d : Doc) (p : Prim) : (d.emit p).cur = d.cur ++ [p] := rfl

/-- Header band always contains the company-name text run in the primary
color, bold 24pt, at (180, 65). -/
theorem headerBand_company_mem (st : Style) (s : Search) (d : Doc) :
    Prim.text st.companyName 180 65 st.primaryColor "Helvetica-Bold" 24 ∈
      (headerBand st s d).allPrims := by
  simp [headerBand, Doc.text, Doc.rectFill, Doc.fillColor, Doc.fontSize, Doc.font,
    Doc.allPrims_mk, Doc.donePages_emit, Doc.cur_emit, Doc.allPrims, Doc.pagesList, Doc.emit]

/-- Logo placeholder block contains the LOGO label and the filled box. -/
theorem drawLogoPlaceholder_mem (st : Style) (d : Doc) :
    Prim.text "LOGO" 90 80 "white" "Helvetica-Bold" 16 ∈ (drawLogoPlaceholder st d).allPrims ∧
    Prim.rect 60 60 100 60 st.primaryColor st.primaryColor ∈ (drawLogoPlaceholder st d).allPrims := by
  constructor <;>
    simp [drawLogoPlaceholder, Doc.text, Doc.rectFill, Doc.fillColor, Doc.fontSize, Doc.font,
      Doc.allPrims_mk, Doc.donePages_emit, Doc.cur_emit, Doc.allPrims, Doc.pagesList, Doc.emit]

/-- Logo block draws the placeholder whenever the logo reference is
falsy, the file is missing, or the bytes do not decode. -/
theorem logoBlock_placeholder_mem (st : Style) (o : Option Organization) (store : Store) (d : Doc)
    (h : jsTruthy (o.bind Organization.logo) = false
       ∨ (∃ l, o.bind Organization.logo = some l ∧ store.existsSync (uploadPath l) = false)
       ∨ (∃ l, o.bind Organization.logo = some l ∧ store.decodes (uploadPath l) = false)) :
    Prim.text "LOGO" 90 80 "white" "Helvetica-Bold" 16 ∈ (logoBlock st o store d).allPrims ∧
    Prim.rect 60 60 100 60 st.primaryColor st.primaryColor ∈ (logoBlock st o store d).allPrims := by
  unfold logoBlock
  rcases hb : o.bind Organization.logo with _ | l
  · exact drawLogoPlaceholder_mem st d
  · dsimp only
    rcases h with h | ⟨l', hl', hmiss⟩ | ⟨l', hl', hdec⟩
    · have he : (l == "") = true := by
        rw [hb] at h
        simpa [jsTruthy] using h
      simp only [he, if_true]
      exact drawLogoPlaceholder_mem st d
    · rw [hb] at hl'
      cases hl'
      cases he : l == ""
      · simp only [he, Bool.false_eq_true, if_false, hmiss]
        exact drawLogoPlaceholder_mem st d
      · simp only [he, if_true]
        exact drawLogoPlaceholder_mem st d
    · rw [hb] at hl'
      cases hl'
      cases he : l == ""
      · cases hex : store.existsSync (uploadPath l)
        · simp only [he, Bool.false_eq_true, if_false, hex]
          exact drawLogoPlaceholder_mem st d
        · simp only [he, Bool.false_eq_true, if_false, hex, if_true, hdec]
          exact drawLogoPlaceholder_mem st d
      · simp only [he, if_true]
        exact drawLogoPlaceholder_mem st d

/-- C9: whenever the branding profile is absent, sets no logo reference,
references a missing asset, or references undecodable bytes, the header
carries the solid placeholder box with the literal LOGO text, and the
render succeeds. -/
theorem logo_placeholder_fallback (s : Search) (o : Option Organization) (store : Store)
    (now : Nat)
    (h : jsTruthy (o.bind Organization.logo) = false
       ∨ (∃ l, o.bind Organization.logo = some l ∧ store.existsSync (uploadPath l) = false)
       ∨ (∃ l, o.bind Organization.logo = some l ∧ store.decodes (uploadPath l) = false)) :
    Prim.text "LOGO" 90 80 "white" "Helvetica-Bold" 16 ∈ (buildDoc s o store).allPrims ∧
    Prim.rect 60 60 100 60 (resolveStyle o).primaryColor (resolveStyle o).primaryColor ∈
      (buildDoc s o store).allPrims ∧
    createPDF writerOk s o store now =
      Except.ok { meta := renderMeta s o now, doc := buildDoc s o store } := by
  have hm := logoBlock_placeholder_mem (resolveStyle o) o store
    (headerBand (resolveStyle o) s initialDoc) h
  exact ⟨mem_allPrims_mono hm.1 (buildDoc_extends_logoBlock s o store),
    mem_allPrims_mono hm.2 (buildDoc_extends_logoBlock s o store), rfl⟩

/-- Organization whose logo reference resolves to NotFound. -/
def orgMissingLogo : Organization :=
  { name := "Acme", logo := some "missing-ref", pdfPrimaryColor := none,
    pdfSecondaryColor := none, pdfCompanyName := none, pdfContactInfo := none }

/-- Witness for C9: scenario D, a branding profile with logo missing-ref
reported NotFound by the store renders the LOGO placeholder. -/
theorem logo_placeholder_fallback_witness :
    Prim.text "LOGO" 90 80 "white" "Helvetica-Bold" 16 ∈
      (buildDoc scenarioA (some orgMissingLogo) emptyStore).allPrims :=
  (logo_placeholder_fallback scenarioA (some orgMissingLogo) emptyStore 0
    (Or.inr (Or.inl ⟨"missing-ref", rfl, rfl⟩))).1

/-- C6: absent branding or unset/empty fields fall back to the
documented defaults; a custom company name appears in the header band,
and with no branding the header shows the default company name. -/
theorem branding_defaults (s : Search) (store : Store) (o : Organization) (n : String) :
    (resolveStyle none).primaryColor = "#4a6da7" ∧
    (resolveStyle none).textColor = "#333333" ∧
    (resolveStyle none).companyName = "CarSearch Pro" ∧
    (resolveStyle none).contactInfo = defaultContactInfo ∧
    (jsTruthy o.pdfPrimaryColor = false → (resolveStyle (some o)).primaryColor = "#4a6da7") ∧
    (jsTruthy o.pdfSecondaryColor = false → (resolveStyle (some o)).textColor = "#333333") ∧
    (jsTruthy o.pdfCompanyName = false → (resolveStyle (some o)).companyName = "CarSearch Pro") ∧
    (jsTruthy o.pdfContactInfo = false → (resolveStyle (some o)).contactInfo = defaultContactInfo) ∧
    (o.pdfCompanyName = some n → n ≠ "" →
      Prim.text n 180 65 (resolveStyle (some o)).primaryColor "Helvetica-Bold" 24 ∈
        (buildDoc s (some o) store).allPrims) ∧
    Prim.text "CarSearch Pro" 180 65 (resolveStyle none).primaryColor "Helvetica-Bold" 24 ∈
      (buildDoc s none store).allPrims := by
  refine ⟨rfl, rfl, rfl, rfl, fun h => jsOr_of_not_truthy h, fun h => jsOr_of_not_truthy h,
    fun h => jsOr_of_not_truthy h, fun h => jsOr_of_not_truthy h, ?_, ?_⟩
  · intro hn hne
    have hne2 : (n == "") = false := by simpa using hne
    have hcomp : (resolveStyle (some o)).companyName = n := by
      simp [resolveStyle, jsOr, hn, hne2]
    have hmem := headerBand_company_mem (resolveStyle (some o)) s initialDoc
    rw [hcomp] at hmem
    exact mem_allPrims_mono hmem (buildDoc_extends_headerBand s (some o) store)
  · have hmem := headerBand_company_mem (resolveStyle none) s initialDoc
    have hc : (resolveStyle none).companyName = "CarSearch Pro" := rfl
    rw [hc] at hmem
    exact mem_allPrims_mono hmem (buildDoc_extends_headerBand s none store)

/-- Organization with a custom company name, an empty secondary color
and the other branding fields unset. -/
def orgAcme : Organization :=
  { name := "Acme", logo := none, pdfPrimaryColor := none, pdfSecondaryColor := some "",
    pdfCompanyName := some "Acme Cars", pdfContactInfo := none }

/-- Witness for C6: with an empty secondary color the default text color
applies, and the custom company name is drawn in the header. -/
theorem branding_defaults_witness :
    (resolveStyle (some orgAcme)).textColor = "#333333" ∧
    Prim.text "Acme Cars" 180 65 (resolveStyle (some orgAcme)).primaryColor "Helvetica-Bold" 24 ∈
      (buildDoc scenarioA (some orgAcme) emptyStore).allPrims := by
  have h := branding_defaults scenarioA emptyStore orgAcme "Acme Cars"
  exact ⟨h.2.2.2.2.2.1 (by decide), h.2.2.2.2.2.2.2.2.1 rfl (by decide)⟩

/-! ## Gallery loop properties -/

/-- Image-list index carried by a gallery event, none for a page break. -/
def eventIndex : GEvent → Option Nat
  | GEvent.placed i _ _ _ _ => some i
  | GEvent.skipped i => some i
  | GEvent.pageBreak => none

/-- The gallery loop visits consecutive indices starting at its initial
counter, one event per list entry. -/
theorem galleryGo_indices (store : Store) (total : Nat) :
    ∀ (l : List String) (i col startY : Nat),
      (galleryGo store total l i col startY).filterMap eventIndex = List.range' i l.length := by
  intro l
  induction l with
  | nil => intro i col startY; simp [galleryGo]
  | cons ref rest ih =>
    intro i col startY
    simp only [galleryGo]
    split
    · split
      · simp [eventIndex, ih, List.length_cons, List.range'_succ]
      · split
        · simp [eventIndex, ih, List.length_cons, List.range'_succ]
        · simp [eventIndex, ih, List.length_cons, List.range'_succ]
    · simp [eventIndex, ih, List.length_cons, List.range'_succ]

/-- C3: the gallery examines exactly the first min(N, 4) image
references, in order; entries at index 4 and beyond produce no event at
all. -/
theorem gallery_cap_indices (store : Store) (images : List String) (startY : Nat) :
    (galleryTrace store images startY).filterMap eventIndex =
      List.range (min images.length 4) := by
  unfold galleryTrace
  rw [galleryGo_indices, List.length_take, List.range_eq_range']
  congr 1
  omega

/-- An entry whose file is missing yields a skipped event at its index. -/
theorem galleryGo_skipped_mem (store : Store) (total : Nat) :
    ∀ (l : List String) (k i col startY : Nat) (ref : String),
      l.get? k = some ref → store.existsSync (uploadPath ref) = false →
      GEvent.skipped (i + k) ∈ galleryGo store total l i col startY := by
  intro l
  induction l with
  | nil => intro k i col startY ref h _; simp at h
  | cons r rest ih =>
    intro k i col startY ref hget hmiss
    cases k with
    | zero =>
      have hr : r = ref := by simpa using hget
      subst hr
      simp only [galleryGo, hmiss]
      simp
    | succ k =>
      have hget2 : rest.get? k = some ref := by simpa using hget
      have hidx : i + (k + 1) = (i + 1) + k := by omega
      rw [hidx]
      simp only [galleryGo]
      split
      · split
        · exact List.mem_cons_of_mem _ (ih k (i + 1) 1 startY ref hget2 hmiss)
        · split
          · exact List.mem_cons_of_mem _ (List.mem_cons_of_mem _
              (ih k (i + 1) 0 50 ref hget2 hmiss))
          · exact List.mem_cons_of_mem _
              (ih k (i + 1) 0 (startY + imgHeight + imgMargin) ref hget2 hmiss)
      · exact List.mem_cons_of_mem _ (ih k (i + 1) col startY ref hget2 hmiss)

/-- Every placed event comes from a list entry at the matching offset
whose file exists. -/
theorem galleryGo_placed_mem (store : Store) (total : Nat) :
    ∀ (l : List String) (i col startY j x y : Nat) (r : String) (b : Bool),
      GEvent.placed j r x y b ∈ galleryGo store total l i col startY →
      ∃ m, l.get? m = some r ∧ j = i + m ∧ store.existsSync (uploadPath r) = true := by
  intro l
  induction l with
  | nil => intro i col startY j x y r b h; simp [galleryGo] at h
  | cons rr rest ih =>
    intro i col startY j x y r b h
    simp only [galleryGo] at h
    split at h
    case isTrue hex =>
      split at h
      · rcases List.mem_cons.mp h with he | ht
        · obtain ⟨hj, hr, -, -, -⟩ : j = i ∧ r = rr ∧ _ ∧ _ ∧ _ := by
            simpa using he
          subst hj; subst hr
          exact ⟨0, by simp, by omega, hex⟩
        · obtain ⟨m, hm, hjm, hx⟩ := ih (i + 1) 1 startY j x y r b ht
          exact ⟨m + 1, by simpa using hm, by omega, hx⟩
      · split at h
        · rcases List.mem_cons.mp h with he | ht
          · obtain ⟨hj, hr, -, -, -⟩ : j = i ∧ r = rr ∧ _ ∧ _ ∧ _ := by
              simpa using he
            subst hj; subst hr
            exact ⟨0, by simp, by omega, hex⟩
          · rcases List.mem_cons.mp ht with he2 | ht2
            · simp at he2
            · obtain ⟨m, hm, hjm, hx⟩ := ih (i + 1) 0 50 j x y r b ht2
              exact ⟨m + 1, by simpa using hm, by omega, hx⟩
        · rcases List.mem_cons.mp h with he | ht
          · obtain ⟨hj, hr, -, -, -⟩ : j = i ∧ r = rr ∧ _ ∧ _ ∧ _ := by
              simpa using he
            subst hj; subst hr
            exact ⟨0, by simp, by omega, hex⟩
          · obtain ⟨m, hm, hjm, hx⟩ :=
              ih (i + 1) 0 (startY + imgHeight + imgMargin) j x y r b ht
            exact ⟨m + 1, by simpa using hm, by omega, hx⟩
    case isFalse hex =>
      rcases List.mem_cons.mp h with he | ht
      · simp at he
      · obtain ⟨m, hm, hjm, hx⟩ := ih (i + 1) col startY j x y r b ht
        exact ⟨m + 1, by simpa using hm, by omega, hx⟩

/-- C1 (amended): an image reference among the first min(N, 4) whose
asset is NotFound is skipped outright: the trace records a skip at its
index, no image or placeholder is placed for that index, and the render
still completes successfully. -/
theorem notfound_image_skipped (store : Store) (images : List String) (startY i : Nat)
    (ref : String) (hi : i < min images.length 4) (hget : images.get? i = some ref)
    (hmiss : store.existsSync (uploadPath ref) = false) :
    GEvent.skipped i ∈ galleryTrace store images startY ∧
    (∀ r x y b, GEvent.placed i r x y b ∉ galleryTrace store images startY) ∧
    (∀ s o now, s.images = some images →
      createPDF writerOk s o store now =
        Except.ok { meta := renderMeta s o now, doc := buildDoc s o store }) := by
  have htake : (images.take (min images.length 4)).get? i = some ref := by
    rw [List.get?_eq_getElem?, List.getElem?_take_of_lt hi, ← List.get?_eq_getElem?]
    exact hget
  refine ⟨?_, ?_, fun s o now _ => rfl⟩
  · have h := galleryGo_skipped_mem store images.length (images.take (min images.length 4))
      i 0 0 startY ref htake hmiss
    simpa [galleryTrace] using h
  · intro r x y b hmem
    obtain ⟨m, hm, hjm, hx⟩ := galleryGo_placed_mem store images.length
      (images.take (min images.length 4)) 0 0 startY i x y r b
      (by simpa [galleryTrace] using hmem)
    have hmi : m = i := by omega
    subst hmi
    rw [htake] at hm
    have : r = ref := by simpa using hm.symm
    subst this
    rw [hmiss] at hx
    exact Bool.false_ne_true hx

/-- Counterexample for C1 as stated: with images a.jpg (NotFound) and
b.jpg (resolvable), the document contains no unavailable-image
placeholder text anywhere, and b.jpg is drawn at column 0 (x = 50) in
the slot the claim reserves for a.jpg, instead of at column 1 (x = 295)
as when a.jpg resolves. -/
theorem notfound_image_skipped_cx :
    ((buildDoc cxSearch2 none storeOnlyB).allPrims.all fun pr =>
        match pr with
        | Prim.text t _ _ _ _ _ => !(t == "Afbeelding niet beschikbaar")
        | _ => true) = true ∧
    Prim.image (uploadPath "b.jpg") 50 480 imgWidth imgHeight ∈
      (buildDoc cxSearch2 none storeOnlyB).allPrims ∧
    Prim.image (uploadPath "b.jpg") 295 480 imgWidth imgHeight ∈
      (buildDoc cxSearch2 none storeAll).allPrims := by
  refine ⟨?_, ?_, ?_⟩ <;> decide

/-- Witness for the amended C1 at the concrete two-image input. -/
theorem notfound_image_skipped_witness :
    GEvent.skipped 0 ∈ galleryTrace storeOnlyB cxImages2 480 ∧
    GEvent.placed 0 "a.jpg" 50 480 true ∉ galleryTrace storeOnlyB cxImages2 480 := by
  have h := notfound_image_skipped storeOnlyB cxImages2 480 0 "a.jpg"
    (by decide) (by decide) (by decide)
  exact ⟨h.1, h.2.1 "a.jpg" 50 480 true⟩

/-- Checks that page breaks in a gallery trace occur exactly at the
positions the source condition dictates: immediately after a
second-column placement (x = 295) at full-list index i with
i < total - 2 whose advanced row top plus the box height exceeds 750,
and nowhere else. -/
def breaksExact (total : Nat) : List GEvent → Bool
  | [] => true
  | GEvent.pageBreak :: _ => false
  | GEvent.skipped _ :: rest => breaksExact total rest
  | GEvent.placed i _ x y _ :: rest =>
    if x == 295 && (decide (i < total - 2) && decide (y + imgHeight + imgMargin + imgHeight > 750)) then
      match rest with
      | GEvent.pageBreak :: rest2 => breaksExact total rest2
      | _ => false
    else breaksExact total rest

/-- The gallery loop satisfies the exact break placement for any start
state with a binary column toggle. -/
theorem galleryGo_breaks (store : Store) (total : Nat) :
    ∀ (l : List String) (i startY col : Nat), col = 0 ∨ col = 1 →
      breaksExact total (galleryGo store total l i col startY) = true := by
  intro l
  induction l with
  | nil => intro i startY col _; simp [galleryGo, breaksExact]
  | cons r rest ih =>
    intro i startY col hcol
    rcases hcol with hcol | hcol <;> subst hcol
    · cases hex : store.existsSync (uploadPath r)
      · have hgo : galleryGo store total (r :: rest) i 0 startY =
            GEvent.skipped i :: galleryGo store total rest (i + 1) 0 startY := by
          simp [galleryGo, hex]
        rw [hgo, breaksExact.eq_def]
        exact ih (i + 1) startY 0 (Or.inl rfl)
      · have hgo : galleryGo store total (r :: rest) i 0 startY =
            GEvent.placed i r 50 startY (store.decodes (uploadPath r)) ::
              galleryGo store total rest (i + 1) 1 startY := by
          simp [galleryGo, hex]
        rw [hgo, breaksExact.eq_def]
        exact ih (i + 1) startY 1 (Or.inr rfl)
    · cases hex : store.existsSync (uploadPath r)
      · have hgo : galleryGo store total (r :: rest) i 1 startY =
            GEvent.skipped i :: galleryGo store total rest (i + 1) 1 startY := by
          simp [galleryGo, hex]
        rw [hgo, breaksExact.eq_def]
        exact ih (i + 1) startY 1 (Or.inr rfl)
      · cases hcond : decide (i < total - 2) &&
            decide (startY + imgHeight + imgMargin + imgHeight > 750)
        · have hgo : galleryGo store total (r :: rest) i 1 startY =
              GEvent.placed i r (50 + imgWidth + imgMargin) startY
                  (store.decodes (uploadPath r)) ::
                galleryGo store total rest (i + 1) 0 (startY + imgHeight + imgMargin) := by
            simp [galleryGo, hex, hcond]
          rw [hgo, breaksExact.eq_def]
          dsimp only
          rw [hcond]
          exact ih (i + 1) (startY + imgHeight + imgMargin) 0 (Or.inl rfl)
        · have hgo : galleryGo store total (r :: rest) i 1 startY =
              GEvent.placed i r (50 + imgWidth + imgMargin) startY
                  (store.decodes (uploadPath r)) ::
                GEvent.pageBreak :: galleryGo store total rest (i + 1) 0 50 := by
            simp [galleryGo, hex, hcond]
          rw [hgo, breaksExact.eq_def]
          dsimp only
          rw [hcond]
          exact ih (i + 1) 50 0 (Or.inl rfl)

/-- C2 (amended): in any gallery trace, a new page is started exactly
when, immediately after a second-column placement at full-list index i,
the advanced row top plus the box height exceeds 750 AND i is below the
UNCAPPED image count minus two; never mid-row and never anywhere else. -/
theorem gallery_break_rule (store : Store) (images : List String) (startY : Nat) :
    breaksExact images.length (galleryTrace store images startY) = true :=
  galleryGo_breaks store images.length (images.take (min images.length 4)) 0 startY 0 (Or.inl rfl)

/-- Counterexample for C2 as stated: with three resolvable images and
gallery start 480, the row completed at index 1 projects the next row
top to 655 with 655 + 160 over the 750 threshold while image index 2
still remains to be placed, yet the code starts no new page: index 2 is
drawn at y = 655 on the same page and the document stays single-page. -/
theorem gallery_break_cx :
    GEvent.placed 1 "b.jpg" 295 480 true ∈ galleryTrace storeAll cxImages3 480 ∧
    480 + imgHeight + imgMargin + imgHeight > 750 ∧
    GEvent.placed 2 "c.jpg" 50 655 true ∈ galleryTrace storeAll cxImages3 480 ∧
    GEvent.pageBreak ∉ galleryTrace storeAll cxImages3 480 ∧
    (buildDoc cxSearch3 none storeAll).pagesList.length = 1 := by
  refine ⟨?_, ?_, ?_, ?_, ?_⟩ <;> decide
